import Mathlib

/-!
Verification development for the YaarFetch connection gateway
(src/unnamed/part_001, with src/unnamed/part_000 and
src/backend/src/server.ts as earlier variants).

The development shallowly embeds the origin policy, the request gateway
pipeline, and the realtime gateway room model, and proves the spec
properties about them.
-/

namespace YaarFetch

/-- Fallback value for the FRONTEND_URL environment variable
(src/unnamed/part_001 line 32). -/
def defaultFrontendUrl : String := "https://serene-embrace-production.up.railway.app"

/-- The allow-list built at process start (src/unnamed/part_001 lines 38-44):
the configured frontend URL followed by the four fixed entries. -/
def allowedOrigins (frontendUrl : String) : List String :=
  [frontendUrl,
   "http://localhost:5173",
   "http://localhost:3000",
   "https://serene-embrace-production.up.railway.app",
   "https://yaar-fetchv2-eight.vercel.app"]

/-- The allow-list under the default configuration (no FRONTEND_URL override). -/
def defaultAllowedOrigins : List String := allowedOrigins defaultFrontendUrl

/-- Transient per-request origin decision value. -/
structure CorsDecision where
  allowed : Bool
  origin : Option String
  deriving DecidableEq, Repr

/-- The origin-policy decision function, embedded from corsOptions.origin
(src/unnamed/part_001 lines 49-59): a request with no declared origin is
allowed; a present origin is allowed exactly when the allow-list contains it
verbatim (allowedOrigins.includes). The callback signals denial through an
error value, which the embedding records as allowed = false; the function
itself is total and never fails. -/
def decide (declaredOrigin : Option String) (allowList : List String) : CorsDecision :=
  match declaredOrigin with
  | none => { allowed := true, origin := none }
  | some o => { allowed := Decidable.decide (o ∈ allowList), origin := some o }

/-- Allowance reported by the GET /api/cors-test endpoint
(src/unnamed/part_001 line 129): allowedOrigins.includes of the declared
origin, with an absent origin replaced by the empty string. -/
def corsTestAllowed (origin : Option String) (allowList : List String) : Bool :=
  Decidable.decide (origin.getD "" ∈ allowList)

/-- Decision applied by the simple-request CORS middleware, app.use with
cors of corsOptions (src/unnamed/part_001 line 67): the corsOptions.origin
function itself. -/
def simpleRequestDecision (origin : Option String) (allowList : List String) : CorsDecision :=
  decide origin allowList

/-- Decision applied to pre-flight OPTIONS requests, app.options with cors
of the same corsOptions object (src/unnamed/part_001 line 68). -/
def preflightDecision (origin : Option String) (allowList : List String) : CorsDecision :=
  decide origin allowList

/-- Modelled from the spec: the Socket.IO handshake check. The source
configures the Socket.IO server with cors origin set to the allowedOrigins
array (src/unnamed/part_001 lines 73-79); the interpretation of that array
lives in the socket.io library, not under src. The spec says the handshake
applies the Origin Policy: a present origin is allowed exactly when the list
contains it, and an absent origin is exempt. -/
def handshakeAllowed (origin : Option String) (allowList : List String) : Bool :=
  match origin with
  | none => true
  | some o => Decidable.decide (o ∈ allowList)

/-- Process configuration read from the environment at startup:
FRONTEND_URL (with its fixed default) and the NODE_ENV environment name
(default development, src/unnamed/part_001 lines 32 and 113). -/
structure Config where
  frontendUrl : String
  environment : String
  deriving DecidableEq, Repr

/-- The default configuration: no environment overrides. -/
def defaultConfig : Config :=
  { frontendUrl := defaultFrontendUrl, environment := "development" }

/-- An inbound HTTP request as the gateway sees it: method, path, declared
origin header, and the size in bytes of the body. -/
structure Request where
  method : String
  path : String
  origin : Option String
  bodySize : Nat
  deriving DecidableEq, Repr

/-- Structured body of the 403 CORS denial response
(src/unnamed/part_001 lines 162-167). -/
structure CorsErrorBody where
  error : String
  message : String
  yourOrigin : Option String
  allowedOrigins : List String
  deriving DecidableEq, Repr

/-- Body of the GET /api/health response (src/unnamed/part_001 lines
109-118): status, message, timestamp, environment, and the cors object with
allowedOrigins and frontendUrl. -/
structure HealthBody where
  status : String
  message : String
  timestamp : String
  environment : String
  corsAllowedOrigins : List String
  corsFrontendUrl : String
  deriving DecidableEq, Repr

/-- Body of the GET /api/cors-test response
(src/unnamed/part_001 lines 125-130). -/
structure CorsTestBody where
  success : Bool
  message : String
  origin : Option String
  allowed : Bool
  deriving DecidableEq, Repr

/-- Response bodies the gateway can produce. -/
inductive Body where
  | corsError (b : CorsErrorBody)
  | payloadTooLarge
  | file (name : String)
  | health (b : HealthBody)
  | corsTest (b : CorsTestBody)
  | notFound
  | fromHandler (group : String)
  deriving DecidableEq, Repr

/-- An HTTP response: status code and structured body. -/
structure Response where
  status : Nat
  body : Body
  deriving DecidableEq, Repr

/-- Modelled from the spec: the express.json and express.urlencoded body
size limit of the string 10mb (src/unnamed/part_001 lines 84-85). The
enforcement lives in the body-parser library, not under src: it reads 10mb
as 10 times 2 to the 20th bytes and rejects larger bodies with a 413 client
error before any handler runs, retaining nothing. -/
def jsonLimit : Nat := 10 * 1024 * 1024

/-- The seven mounted route groups, in mount order
(src/unnamed/part_001 lines 97-103): path to handler-group name. -/
def routeTable : List (String × String) :=
  [("/api/auth", "auth"),
   ("/api/users", "users"),
   ("/api/orders", "orders"),
   ("/api/offers", "offers"),
   ("/api/matches", "matches"),
   ("/api/messages", "messages"),
   ("/api/reviews", "reviews")]

/-- Path-prefix test used by the express mounts app.use and the static
uploads mount: the mount path is a prefix of the request path. Stated on the
underlying character lists so that it evaluates structurally. -/
def pathHasPrefix (path pre : String) : Bool :=
  pre.data.isPrefixOf path.data

/-- File name addressed under the /uploads/ mount: the request path with the
nine characters of the /uploads/ prefix removed. -/
def uploadName (path : String) : String :=
  String.mk (path.data.drop 9)

/-- The request-gateway pipeline of src/unnamed/part_001, in middleware
order: the CORS middleware first (a denied origin short-circuits to the 403
error handler of lines 160-170 and reaches nothing downstream), then body
parsing with the size limit, then the static uploads directory, then the
seven route groups (dispatched to the external handler functions), then the
two built-in diagnostic endpoints, else 404. The second component of the
result names the external handler group invoked, none when no handler ran.
The handlers argument stands for the external handler groups; uploads is
the set of stored file names; now is the current timestamp. -/
def handleRequest (cfg : Config) (now : String) (uploads : List String)
    (handlers : String → Request → Response) (req : Request) :
    Response × Option String :=
  if (decide req.origin (allowedOrigins cfg.frontendUrl)).allowed then
    if req.bodySize > jsonLimit then
      ({ status := 413, body := Body.payloadTooLarge }, none)
    else if pathHasPrefix req.path "/uploads/" then
      (if uploadName req.path ∈ uploads then
        { status := 200, body := Body.file (uploadName req.path) }
      else
        { status := 404, body := Body.notFound }, none)
    else
      match routeTable.find? (fun e => pathHasPrefix req.path e.fst) with
      | some e => (handlers e.snd req, some e.snd)
      | none =>
        if req.path = "/api/health" then
          ({ status := 200,
             body := Body.health
               { status := "ok", message := "Server is running",
                 timestamp := now, environment := cfg.environment,
                 corsAllowedOrigins := allowedOrigins cfg.frontendUrl,
                 corsFrontendUrl := cfg.frontendUrl } }, none)
        else if req.path = "/api/cors-test" then
          ({ status := 200,
             body := Body.corsTest
               { success := true, message := "CORS is working!",
                 origin := req.origin,
                 allowed := corsTestAllowed req.origin
                   (allowedOrigins cfg.frontendUrl) } }, none)
        else
          ({ status := 404, body := Body.notFound }, none)
  else
    ({ status := 403,
       body := Body.corsError
         { error := "CORS Error", message := "Origin not allowed",
           yourOrigin := req.origin,
           allowedOrigins := allowedOrigins cfg.frontendUrl } }, none)

/-- Modelled from the spec: the realtime-gateway state. The room registry of
socket.io is not under src; per the spec a Room exists implicitly as the set
of Connections whose joined-room set contains its identifier, so the state is
the list of open connection identifiers plus the membership relation between
connection identifiers and room identifiers. -/
structure RTState where
  conns : List Nat
  membership : List (Nat × String)
  deriving DecidableEq, Repr

/-- Modelled from the spec: socket.join adds the pair of the connection and
the room to the membership relation; joining a room already joined is a
no-op. -/
def join (c : Nat) (r : String) (s : RTState) : RTState :=
  if (c, r) ∈ s.membership then s
  else { s with membership := (c, r) :: s.membership }

/-- Modelled from the spec: socket.leave removes the pair of the connection
and the room from the membership relation; leaving a room not joined is a
no-op. -/
def leave (c : Nat) (r : String) (s : RTState) : RTState :=
  { s with
    membership := s.membership.filter (fun q => Decidable.decide (q ≠ (c, r))) }

/-- Modelled from the spec: a handshake that passes the origin policy opens a
fresh connection with an empty room set. -/
def connect (c : Nat) (s : RTState) : RTState :=
  { s with conns := c :: s.conns }

/-- Modelled from the spec: on transition to Closed the connection is removed
from the open set and from the membership of every room (the disconnect
handler of src/unnamed/part_001 lines 149-151 only logs; the removal is the
socket.io room cleanup the spec describes). -/
def disconnect (c : Nat) (s : RTState) : RTState :=
  { conns := s.conns.filter (fun c2 => Decidable.decide (c2 ≠ c)),
    membership := s.membership.filter (fun q => Decidable.decide (q.fst ≠ c)) }

/-- Room identifier used by the join-room and leave-room handlers for a
client-supplied match identifier (src/unnamed/part_001 lines 140 and 145):
the template literal match-${matchId}. -/
def roomName (matchId : String) : String := "match-" ++ matchId

/-- The join-room event handler (src/unnamed/part_001 lines 139-142):
socket.join on the match- prefixed room. -/
def joinRoom (c : Nat) (matchId : String) (s : RTState) : RTState :=
  join c (roomName matchId) s

/-- The leave-room event handler (src/unnamed/part_001 lines 144-147):
socket.leave on the match- prefixed room. -/
def leaveRoom (c : Nat) (matchId : String) (s : RTState) : RTState :=
  leave c (roomName matchId) s

/-- Modelled from the spec: the delivery targets of a publish to a room are
the currently open connections whose joined-room set contains that room. -/
def publishTargets (r : String) (s : RTState) : List Nat :=
  s.conns.filter (fun c => Decidable.decide ((c, r) ∈ s.membership))

/-- One delivered event: receiving connection, event name and payload. -/
structure Delivery where
  conn : Nat
  event : String
  payload : String
  deriving DecidableEq, Repr

/-- Modelled from the spec: publish(roomId, eventName, payload) delivers the
payload tagged with the event name to every current member of the room, once
per open member, and delivers nothing when the room has no members. -/
def publish (r : String) (e : String) (p : String) (s : RTState) : List Delivery :=
  (publishTargets r s).map (fun c => { conn := c, event := e, payload := p })

/-- The client-driven realtime events: the two room events of
src/unnamed/part_001 lines 139-147 plus handshake and disconnect. -/
inductive REvent where
  | joinRoom (c : Nat) (m : String)
  | leaveRoom (c : Nat) (m : String)
  | disconnect (c : Nat)
  | connect (c : Nat)
  deriving DecidableEq, Repr

/-- One transition of the realtime gateway on a client event. -/
def step (s : RTState) : REvent → RTState
  | .joinRoom c m => joinRoom c m s
  | .leaveRoom c m => leaveRoom c m s
  | .disconnect c => disconnect c s
  | .connect c => connect c s

/-- A trace of client events applied in order. -/
def run (s : RTState) (es : List REvent) : RTState :=
  es.foldl step s

/-- Whether an event is join or leave activity addressed to a room other
than r. -/
def touchesOnlyOtherRoom (r : String) : REvent → Bool
  | .joinRoom _ m => Decidable.decide (roomName m ≠ r)
  | .leaveRoom _ m => Decidable.decide (roomName m ≠ r)
  | _ => false

/-- A small concrete realtime state used by the closed witness theorems:
three open connections, the first two in room match-42, the third in room
match-7. -/
def rtExample : RTState :=
  { conns := [1, 2, 3],
    membership := [(1, "match-42"), (2, "match-42"), (3, "match-7")] }

/-- C1: for every declared origin O and allow-list L, the origin-policy
decision returns allowed = true iff O is absent or O is verbatim an element of
L; concretely, under the default allow-list, an absent origin and the origin
http://localhost:5173 are allowed and http://evil.example is denied. -/
theorem decide_allowed_iff :
    (∀ (O : Option String) (L : List String),
        (YaarFetch.decide O L).allowed = true ↔
          O = none ∨ ∃ o, O = some o ∧ o ∈ L)
    ∧ (YaarFetch.decide none defaultAllowedOrigins).allowed = true
    ∧ (YaarFetch.decide (some "http://localhost:5173")
        defaultAllowedOrigins).allowed = true
    ∧ (YaarFetch.decide (some "http://evil.example")
        defaultAllowedOrigins).allowed = false := by
  refine ⟨?_, by decide, by decide, by decide⟩
  intro O L
  cases O with
  | none => simp [YaarFetch.decide]
  | some o => simp [YaarFetch.decide]

/-- C2 counterexample: for an absent declared origin the cors-test endpoint
reports allowed = false under the default allow-list, while the shared origin
decision allows an absent origin; so the endpoint does not agree with the
decision function on every origin. -/
theorem cors_test_absent_origin_counterexample :
    (YaarFetch.decide none defaultAllowedOrigins).allowed = true
    ∧ corsTestAllowed none defaultAllowedOrigins = false
    ∧ (handleRequest defaultConfig "2026-01-01T00:00:00.000Z" []
        (fun _ _ => { status := 200, body := Body.notFound })
        { method := "GET", path := "/api/cors-test",
          origin := none, bodySize := 0 }).fst.body
      = Body.corsTest
          { success := true, message := "CORS is working!",
            origin := none, allowed := false } := by
  refine ⟨by decide, by decide, ?_⟩
  rfl

/-- C2 amended: the simple-request and pre-flight enforcement points are the
same origin decision function, and the handshake check agrees with it on
every origin; the cors-test endpoint reports exactly the shared decision for
every present declared origin, but for an absent origin it reports whether
the empty string is in the allow-list (false under the default list) while
the shared decision allows absent origins. -/
theorem cors_enforcement_shared (L : List String) (o : String) :
    simpleRequestDecision (some o) L = YaarFetch.decide (some o) L
    ∧ preflightDecision (some o) L = YaarFetch.decide (some o) L
    ∧ handshakeAllowed (some o) L = (YaarFetch.decide (some o) L).allowed
    ∧ corsTestAllowed (some o) L = (YaarFetch.decide (some o) L).allowed
    ∧ simpleRequestDecision none L = YaarFetch.decide none L
    ∧ preflightDecision none L = YaarFetch.decide none L
    ∧ handshakeAllowed none L = (YaarFetch.decide none L).allowed
    ∧ corsTestAllowed none L = Decidable.decide ("" ∈ L) := by
  simp [simpleRequestDecision, preflightDecision, handshakeAllowed,
    corsTestAllowed, YaarFetch.decide]

/-- C3: a request whose declared origin is present but not in the allow-list
is answered with HTTP 403 and the structured CORS-error body reporting the
rejected origin and the current allow-list, and no downstream handler group
is invoked, whatever the method, path, body size and handlers. -/
theorem origin_denied_403 (cfg : Config) (now : String) (uploads : List String)
    (handlers : String → Request → Response) (method path : String)
    (bodySize : Nat) (o : String)
    (h : o ∉ allowedOrigins cfg.frontendUrl) :
    handleRequest cfg now uploads handlers
      { method := method, path := path, origin := some o, bodySize := bodySize }
      = ({ status := 403,
           body := Body.corsError
             { error := "CORS Error", message := "Origin not allowed",
               yourOrigin := some o,
               allowedOrigins := allowedOrigins cfg.frontendUrl } }, none) := by
  simp [handleRequest, YaarFetch.decide, h]

/-- Witness for C3 at the end-to-end scenario 2 input: a GET on /api/orders
declaring origin http://evil.example under the default configuration. -/
theorem origin_denied_403_witness :
    "http://evil.example" ∉ allowedOrigins defaultConfig.frontendUrl
    ∧ handleRequest defaultConfig "2026-01-01T00:00:00.000Z" []
        (fun _ _ => { status := 200, body := Body.notFound })
        { method := "GET", path := "/api/orders",
          origin := some "http://evil.example", bodySize := 0 }
      = ({ status := 403,
           body := Body.corsError
             { error := "CORS Error", message := "Origin not allowed",
               yourOrigin := some "http://evil.example",
               allowedOrigins := allowedOrigins defaultConfig.frontendUrl } },
         none) :=
  ⟨by decide,
   origin_denied_403 defaultConfig "2026-01-01T00:00:00.000Z" []
     (fun _ _ => { status := 200, body := Body.notFound })
     "GET" "/api/orders" 0 "http://evil.example" (by decide)⟩

/-- C7: a GET on /api/health whose declared origin passes the origin policy
and whose body is within the limit is answered with HTTP 200 and the health
body: status ok, a message, the timestamp, the environment name, and the
cors report with the active allow-list and frontend URL; no handler group is
invoked. -/
theorem health_endpoint (cfg : Config) (now : String) (uploads : List String)
    (handlers : String → Request → Response) (o : Option String)
    (bodySize : Nat)
    (hallow : (YaarFetch.decide o (allowedOrigins cfg.frontendUrl)).allowed = true)
    (hsize : bodySize ≤ jsonLimit) :
    handleRequest cfg now uploads handlers
      { method := "GET", path := "/api/health", origin := o, bodySize := bodySize }
      = ({ status := 200,
           body := Body.health
             { status := "ok", message := "Server is running",
               timestamp := now, environment := cfg.environment,
               corsAllowedOrigins := allowedOrigins cfg.frontendUrl,
               corsFrontendUrl := cfg.frontendUrl } }, none) := by
  have h2 : ¬ (bodySize > jsonLimit) := Nat.not_lt.mpr hsize
  simp only [handleRequest, hallow, if_true, h2, if_false]
  rfl

/-- Witness for C7 at the end-to-end scenario 1 input: a GET on /api/health
declaring origin http://localhost:3000 under the default configuration. -/
theorem health_endpoint_witness :
    (YaarFetch.decide (some "http://localhost:3000")
      (allowedOrigins defaultConfig.frontendUrl)).allowed = true
    ∧ (0 : Nat) ≤ jsonLimit
    ∧ handleRequest defaultConfig "2026-01-01T00:00:00.000Z" []
        (fun _ _ => { status := 200, body := Body.notFound })
        { method := "GET", path := "/api/health",
          origin := some "http://localhost:3000", bodySize := 0 }
      = ({ status := 200,
           body := Body.health
             { status := "ok", message := "Server is running",
               timestamp := "2026-01-01T00:00:00.000Z",
               environment := defaultConfig.environment,
               corsAllowedOrigins := allowedOrigins defaultConfig.frontendUrl,
               corsFrontendUrl := defaultConfig.frontendUrl } }, none) :=
  ⟨by decide, by decide,
   health_endpoint defaultConfig "2026-01-01T00:00:00.000Z" []
     (fun _ _ => { status := 200, body := Body.notFound })
     (some "http://localhost:3000") 0 (by decide) (by decide)⟩

/-- C8: a request whose body exceeds the configured limit never reaches a
handler group and is rejected with a 4xx client error: 413 when the origin
passes the policy, 403 when the origin is denied first; in both cases the
invoked-handler component is none, so no handler sees the oversized body. -/
theorem payload_too_large (cfg : Config) (now : String) (uploads : List String)
    (handlers : String → Request → Response) (req : Request)
    (h : req.bodySize > jsonLimit) :
    ((handleRequest cfg now uploads handlers req).fst.status = 413
      ∨ (handleRequest cfg now uploads handlers req).fst.status = 403)
    ∧ 400 ≤ (handleRequest cfg now uploads handlers req).fst.status
    ∧ (handleRequest cfg now uploads handlers req).fst.status < 500
    ∧ (handleRequest cfg now uploads handlers req).snd = none := by
  by_cases hb :
      (YaarFetch.decide req.origin (allowedOrigins cfg.frontendUrl)).allowed = true
  · simp [handleRequest, hb, h]
  · simp [handleRequest, hb]

/-- Witness for C8: a body of one byte over the limit on /api/orders with an
allowed origin under the default configuration. -/
theorem payload_too_large_witness :
    ({ method := "POST", path := "/api/orders",
       origin := some "http://localhost:3000",
       bodySize := jsonLimit + 1 } : Request).bodySize > jsonLimit
    ∧ (((handleRequest defaultConfig "2026-01-01T00:00:00.000Z" []
          (fun _ _ => { status := 200, body := Body.notFound })
          { method := "POST", path := "/api/orders",
            origin := some "http://localhost:3000",
            bodySize := jsonLimit + 1 }).fst.status = 413
        ∨ (handleRequest defaultConfig "2026-01-01T00:00:00.000Z" []
            (fun _ _ => { status := 200, body := Body.notFound })
            { method := "POST", path := "/api/orders",
              origin := some "http://localhost:3000",
              bodySize := jsonLimit + 1 }).fst.status = 403)
      ∧ 400 ≤ (handleRequest defaultConfig "2026-01-01T00:00:00.000Z" []
          (fun _ _ => { status := 200, body := Body.notFound })
          { method := "POST", path := "/api/orders",
            origin := some "http://localhost:3000",
            bodySize := jsonLimit + 1 }).fst.status
      ∧ (handleRequest defaultConfig "2026-01-01T00:00:00.000Z" []
          (fun _ _ => { status := 200, body := Body.notFound })
          { method := "POST", path := "/api/orders",
            origin := some "http://localhost:3000",
            bodySize := jsonLimit + 1 }).fst.status < 500
      ∧ (handleRequest defaultConfig "2026-01-01T00:00:00.000Z" []
          (fun _ _ => { status := 200, body := Body.notFound })
          { method := "POST", path := "/api/orders",
            origin := some "http://localhost:3000",
            bodySize := jsonLimit + 1 }).snd = none) :=
  ⟨by decide,
   payload_too_large defaultConfig "2026-01-01T00:00:00.000Z" []
     (fun _ _ => { status := 200, body := Body.notFound })
     { method := "POST", path := "/api/orders",
       origin := some "http://localhost:3000", bodySize := jsonLimit + 1 }
     (by decide)⟩

/-- A connection is a publish target for a room iff it is open and a member
of the room. -/
theorem mem_publishTargets (c : Nat) (r : String) (s : RTState) :
    c ∈ publishTargets r s ↔ c ∈ s.conns ∧ (c, r) ∈ s.membership := by
  simp [publishTargets]

/-- Joining a room does not change the set of open connections. -/
theorem join_conns (c : Nat) (r : String) (s : RTState) :
    (join c r s).conns = s.conns := by
  unfold join
  split <;> rfl

/-- Leaving a room does not change the set of open connections. -/
theorem leave_conns (c : Nat) (r : String) (s : RTState) :
    (leave c r s).conns = s.conns := rfl

/-- After a join, the joined pair is in the membership relation. -/
theorem mem_join_membership (c : Nat) (r : String) (s : RTState) :
    (c, r) ∈ (join c r s).membership := by
  unfold join
  split
  · assumption
  · exact List.mem_cons_self _ _

/-- A join to a different room does not change the publish targets of a
room. -/
theorem publishTargets_join_ne (r r' : String) (c' : Nat) (s : RTState)
    (h : r' ≠ r) : publishTargets r (join c' r' s) = publishTargets r s := by
  unfold publishTargets join
  split
  · rfl
  · apply List.filter_congr
    intro c hc
    apply decide_eq_decide.mpr
    constructor
    · intro hin
      rcases List.mem_cons.mp hin with heq | hin2
      · exact absurd (congrArg Prod.snd heq).symm h
      · exact hin2
    · exact fun hin => List.mem_cons_of_mem _ hin

/-- A leave of a different room does not change the publish targets of a
room. -/
theorem publishTargets_leave_ne (r r' : String) (c' : Nat) (s : RTState)
    (h : r' ≠ r) : publishTargets r (leave c' r' s) = publishTargets r s := by
  unfold publishTargets leave
  apply List.filter_congr
  intro c hc
  apply decide_eq_decide.mpr
  constructor
  · exact fun hin => (List.mem_filter.mp hin).1
  · intro hin
    apply List.mem_filter.mpr
    refine ⟨hin, decide_eq_true ?_⟩
    intro heq
    exact h (congrArg Prod.snd heq).symm

/-- A disconnected connection is no longer open. -/
theorem not_mem_disconnect_conns (c : Nat) (s : RTState) :
    c ∉ (disconnect c s).conns := by
  intro hmem
  have h2 := (List.mem_filter.mp hmem).2
  exact (of_decide_eq_true h2) rfl

/-- A step that is not a handshake for c keeps c out of the open set. -/
theorem step_not_mem_conns (c : Nat) (ev : REvent)
    (hev : ev ≠ REvent.connect c) (s : RTState) (hc : c ∉ s.conns) :
    c ∉ (step s ev).conns := by
  cases ev with
  | joinRoom c2 m =>
    show c ∉ (join c2 (roomName m) s).conns
    rw [join_conns]
    exact hc
  | leaveRoom c2 m =>
    show c ∉ (leave c2 (roomName m) s).conns
    rw [leave_conns]
    exact hc
  | disconnect c2 =>
    intro hmem
    exact hc (List.mem_filter.mp hmem).1
  | connect c2 =>
    intro hmem
    rcases List.mem_cons.mp hmem with heq | hmem2
    · exact hev (congrArg REvent.connect heq).symm
    · exact hc hmem2

/-- A trace with no handshake for c keeps c out of the open set. -/
theorem run_not_mem_conns (c : Nat) (es : List REvent) :
    ∀ s : RTState, REvent.connect c ∉ es → c ∉ s.conns →
      c ∉ (run s es).conns := by
  induction es with
  | nil => exact fun s _ hc => hc
  | cons ev tl ih =>
    intro s hno hc
    have hev : ev ≠ REvent.connect c := by
      intro heq
      apply hno
      rw [← heq]
      exact List.mem_cons_self _ _
    exact ih (step s ev)
      (fun hm => hno (List.mem_cons_of_mem _ hm))
      (step_not_mem_conns c ev hev s hc)

/-- A single join or leave addressed to another room does not change the
publish targets of a room. -/
theorem publishTargets_step_other (r : String) (ev : REvent)
    (h : touchesOnlyOtherRoom r ev = true) (s : RTState) :
    publishTargets r (step s ev) = publishTargets r s := by
  cases ev with
  | joinRoom c2 m =>
    have hm : roomName m ≠ r := by simpa [touchesOnlyOtherRoom] using h
    exact publishTargets_join_ne r (roomName m) c2 s hm
  | leaveRoom c2 m =>
    have hm : roomName m ≠ r := by simpa [touchesOnlyOtherRoom] using h
    exact publishTargets_leave_ne r (roomName m) c2 s hm
  | disconnect c2 => simp [touchesOnlyOtherRoom] at h
  | connect c2 => simp [touchesOnlyOtherRoom] at h

/-- A trace of joins and leaves all addressed to other rooms does not change
the publish targets of a room. -/
theorem publishTargets_run_other (r : String) (es : List REvent) :
    ∀ s : RTState, (∀ ev ∈ es, touchesOnlyOtherRoom r ev = true) →
      publishTargets r (run s es) = publishTargets r s := by
  induction es with
  | nil => exact fun s _ => rfl
  | cons ev tl ih =>
    intro s hes
    have h1 : touchesOnlyOtherRoom r ev = true := hes ev (List.mem_cons_self _ _)
    calc publishTargets r (run s (ev :: tl))
        = publishTargets r (run (step s ev) tl) := rfl
      _ = publishTargets r (step s ev) :=
          ih (step s ev) (fun e he => hes e (List.mem_cons_of_mem _ he))
      _ = publishTargets r s := publishTargets_step_other r ev h1 s

/-- The receiving connections of a publish are exactly its targets. -/
theorem publish_map_conn (r e p : String) (s : RTState) :
    (publish r e p s).map Delivery.conn = publishTargets r s := by
  rw [publish, List.map_map]
  have h : (Delivery.conn ∘ fun c =>
      ({ conn := c, event := e, payload := p } : Delivery)) = id := rfl
  rw [h, List.map_id]

/-- Joining the same room a second time is the identity. -/
theorem join_twice (c : Nat) (r : String) (s : RTState) :
    join c r (join c r s) = join c r s := by
  have h1 : (c, r) ∈ (join c r s).membership := mem_join_membership c r s
  conv_lhs => rw [join]
  rw [if_pos h1]

/-- Leaving a room that was never joined changes nothing. -/
theorem leave_not_mem (c : Nat) (r : String) (s : RTState)
    (h : (c, r) ∉ s.membership) : leave c r s = s := by
  rw [leave]
  have h2 : s.membership.filter (fun q => Decidable.decide (q ≠ (c, r)))
      = s.membership := by
    apply List.filter_eq_self.mpr
    intro q hq
    exact decide_eq_true (fun heq => h (heq ▸ hq))
  rw [h2]

/-- The room of a match identifier is never the raw identifier: the match-
prefix makes it six characters longer. -/
theorem roomName_ne (m : String) : roomName m ≠ m := by
  intro heq
  have hlen := congrArg String.length heq
  rw [roomName, String.length_append] at hlen
  have h6 : ("match-" : String).length = 6 := rfl
  rw [h6] at hlen
  omega

/-- Distinct match identifiers are mapped to distinct rooms. -/
theorem roomName_injective : Function.Injective roomName := by
  intro a b hab
  have h2 := congrArg String.data hab
  rw [roomName, roomName, String.data_append, String.data_append] at h2
  exact String.ext (List.append_cancel_left h2)

/-- C4: a publish to room r delivers the event to a connection iff that
connection is currently open and a member of r, each open member receives it
at most once (the receiver list has no duplicates when the open set has
none), and any trace of join or leave activity addressed to other rooms
leaves the target set of r unchanged. -/
theorem publish_isolation (r e p : String) (s : RTState)
    (hnd : s.conns.Nodup) (es : List REvent)
    (hes : ∀ ev ∈ es, touchesOnlyOtherRoom r ev = true) :
    (∀ c : Nat,
        ({ conn := c, event := e, payload := p } : Delivery) ∈ publish r e p s
          ↔ c ∈ s.conns ∧ (c, r) ∈ s.membership)
    ∧ ((publish r e p s).map Delivery.conn).Nodup
    ∧ publishTargets r (run s es) = publishTargets r s := by
  refine ⟨?_, ?_, publishTargets_run_other r es s hes⟩
  · intro c
    constructor
    · intro hmem
      rcases List.mem_map.mp hmem with ⟨c2, hc2, heq⟩
      have hc2c : c2 = c := congrArg Delivery.conn heq
      exact hc2c ▸ (mem_publishTargets c2 r s).mp hc2
    · intro hin
      exact List.mem_map.mpr ⟨c, (mem_publishTargets c r s).mpr hin, rfl⟩
  · rw [publish_map_conn]
    exact List.Nodup.filter _ hnd

/-- Witness for C4 on the concrete example state: a publish of new-message
to room match-42, with connection 1 as receiver, and a concurrent join of
connection 3 to the distinct room match-7. -/
theorem publish_isolation_witness :
    (({ conn := 1, event := "new-message", payload := "hi" } : Delivery)
        ∈ publish "match-42" "new-message" "hi" rtExample
      ↔ 1 ∈ rtExample.conns ∧ (1, "match-42") ∈ rtExample.membership)
    ∧ ((publish "match-42" "new-message" "hi" rtExample).map
        Delivery.conn).Nodup
    ∧ publishTargets "match-42" (run rtExample [REvent.joinRoom 3 "7"])
        = publishTargets "match-42" rtExample :=
  ⟨(publish_isolation "match-42" "new-message" "hi" rtExample (by decide)
      [REvent.joinRoom 3 "7"] (by decide)).1 1,
   (publish_isolation "match-42" "new-message" "hi" rtExample (by decide)
      [REvent.joinRoom 3 "7"] (by decide)).2.1,
   (publish_isolation "match-42" "new-message" "hi" rtExample (by decide)
      [REvent.joinRoom 3 "7"] (by decide)).2.2⟩

/-- C5: the join-room event is idempotent, joining twice equals joining
once, and the leave-room event on a room the connection never joined is a
no-op on the whole state. -/
theorem join_leave_idempotent (c : Nat) (m : String) (s : RTState)
    (h : (c, roomName m) ∉ s.membership) :
    joinRoom c m (joinRoom c m s) = joinRoom c m s
    ∧ leaveRoom c m s = s :=
  ⟨join_twice c (roomName m) s, leave_not_mem c (roomName m) s h⟩

/-- Witness for C5: connection 1 and match identifier 7 on the concrete
example state, where connection 1 never joined room match-7. -/
theorem join_leave_idempotent_witness :
    (1, roomName "7") ∉ rtExample.membership
    ∧ joinRoom 1 "7" (joinRoom 1 "7" rtExample) = joinRoom 1 "7" rtExample
    ∧ leaveRoom 1 "7" rtExample = rtExample :=
  ⟨by decide,
   (join_leave_idempotent 1 "7" rtExample (by decide)).1,
   (join_leave_idempotent 1 "7" rtExample (by decide)).2⟩

/-- C6: a publish to a room with no current members delivers nothing and is
still a defined, error-free value; and after a connection disconnects it is
never a publish target of any room under any further trace that contains no
new handshake for it. -/
theorem publish_empty_room_and_cleanup (r e p : String) (s s2 : RTState)
    (hempty : publishTargets r s = []) (c : Nat) (es : List REvent)
    (hno : REvent.connect c ∉ es) :
    publish r e p s = []
    ∧ ∀ r2 : String, c ∉ publishTargets r2 (run (disconnect c s2) es) := by
  constructor
  · rw [publish, hempty]
    rfl
  · intro r2 hmem
    have h1 : c ∈ (run (disconnect c s2) es).conns :=
      ((mem_publishTargets c r2 _).mp hmem).1
    exact run_not_mem_conns c es (disconnect c s2) hno
      (not_mem_disconnect_conns c s2) h1

/-- Witness for C6 on the concrete example state: room match-99 has no
members so its publish is empty, and after connection 1 disconnects it is
not a target of a publish to match-42 even after further join activity. -/
theorem publish_empty_room_and_cleanup_witness :
    publishTargets "match-99" rtExample = []
    ∧ publish "match-99" "new-message" "hi" rtExample = []
    ∧ 1 ∉ publishTargets "match-42"
        (run (disconnect 1 rtExample) [REvent.joinRoom 2 "42"]) :=
  ⟨by decide,
   (publish_empty_room_and_cleanup "match-99" "new-message" "hi" rtExample
      rtExample (by decide) 1 [REvent.joinRoom 2 "42"] (by decide)).1,
   (publish_empty_room_and_cleanup "match-99" "new-message" "hi" rtExample
      rtExample (by decide) 1 [REvent.joinRoom 2 "42"] (by decide)).2
      "match-42"⟩

/-- C9: a join-room or leave-room request by connection c changes neither
the open set nor the room membership of any other connection: for every
other connection and every room, membership before and after is
unchanged. -/
theorem membership_frame (c c' : Nat) (m r' : String) (s : RTState)
    (hne : c' ≠ c) :
    (joinRoom c m s).conns = s.conns
    ∧ (leaveRoom c m s).conns = s.conns
    ∧ ((c', r') ∈ (joinRoom c m s).membership ↔ (c', r') ∈ s.membership)
    ∧ ((c', r') ∈ (leaveRoom c m s).membership ↔ (c', r') ∈ s.membership) := by
  refine ⟨join_conns c (roomName m) s, leave_conns c (roomName m) s, ?_, ?_⟩
  · show (c', r') ∈ (join c (roomName m) s).membership ↔ _
    unfold join
    split
    · exact Iff.rfl
    · constructor
      · intro hin
        rcases List.mem_cons.mp hin with heq | hin2
        · exact absurd (congrArg Prod.fst heq) hne
        · exact hin2
      · exact fun hin => List.mem_cons_of_mem _ hin
  · show (c', r') ∈ (leave c (roomName m) s).membership ↔ _
    constructor
    · exact fun hin => (List.mem_filter.mp hin).1
    · intro hin
      apply List.mem_filter.mpr
      refine ⟨hin, decide_eq_true ?_⟩
      intro heq
      exact hne (congrArg Prod.fst heq)

/-- Witness for C9 on the concrete example state: a join and a leave by
connection 1 leave the membership of connection 2 in room match-42
unchanged. -/
theorem membership_frame_witness :
    (2 : Nat) ≠ 1
    ∧ (joinRoom 1 "7" rtExample).conns = rtExample.conns
    ∧ (leaveRoom 1 "7" rtExample).conns = rtExample.conns
    ∧ ((2, "match-42") ∈ (joinRoom 1 "7" rtExample).membership
        ↔ (2, "match-42") ∈ rtExample.membership)
    ∧ ((2, "match-42") ∈ (leaveRoom 1 "7" rtExample).membership
        ↔ (2, "match-42") ∈ rtExample.membership) :=
  ⟨by decide,
   (membership_frame 1 2 "7" "match-42" rtExample (by decide)).1,
   (membership_frame 1 2 "7" "match-42" rtExample (by decide)).2.1,
   (membership_frame 1 2 "7" "match-42" rtExample (by decide)).2.2.1,
   (membership_frame 1 2 "7" "match-42" rtExample (by decide)).2.2.2⟩

/-- C10: the join-room and leave-room events for a client-supplied match
identifier m operate on the room named by prefixing match-, which is never m
itself; so joining via join-room m never makes the connection a target of a
publish addressed to the raw identifier m, while it does become a target of
a publish addressed to the prefixed room, and the prefixing map is
injective. -/
theorem join_room_match_prefixed (c : Nat) (m : String) (s : RTState)
    (hc : c ∈ s.conns) :
    joinRoom c m s = join c (roomName m) s
    ∧ leaveRoom c m s = leave c (roomName m) s
    ∧ roomName m ≠ m
    ∧ publishTargets m (joinRoom c m s) = publishTargets m s
    ∧ c ∈ publishTargets (roomName m) (joinRoom c m s)
    ∧ Function.Injective roomName := by
  refine ⟨rfl, rfl, roomName_ne m,
    publishTargets_join_ne m (roomName m) c s (roomName_ne m), ?_,
    roomName_injective⟩
  apply (mem_publishTargets c (roomName m) _).mpr
  constructor
  · show c ∈ (join c (roomName m) s).conns
    rw [join_conns]
    exact hc
  · exact mem_join_membership c (roomName m) s

/-- Witness for C10: connection 1 and match identifier 42 on the concrete
example state. -/
theorem join_room_match_prefixed_witness :
    1 ∈ rtExample.conns
    ∧ joinRoom 1 "42" rtExample = join 1 (roomName "42") rtExample
    ∧ roomName "42" ≠ "42"
    ∧ publishTargets "42" (joinRoom 1 "42" rtExample)
        = publishTargets "42" rtExample
    ∧ 1 ∈ publishTargets (roomName "42") (joinRoom 1 "42" rtExample) :=
  ⟨by decide,
   (join_room_match_prefixed 1 "42" rtExample (by decide)).1,
   (join_room_match_prefixed 1 "42" rtExample (by decide)).2.2.1,
   (join_room_match_prefixed 1 "42" rtExample (by decide)).2.2.2.1,
   (join_room_match_prefixed 1 "42" rtExample (by decide)).2.2.2.2.1⟩

end YaarFetch
